import Mathlib

/-!
Verification of the sensu-slack-handler event formatter, validator and
message assembler (src/main.go), shallowly embedded over `List Char`
(Go strings restricted to the byte = character reading used throughout
the repository's tests).
-/

set_option maxHeartbeats 1000000

/-- Character cutset of the Go literal "\n" as used in `strings.Trim(s, "\n")`. -/
def cutsetN (c : Char) : Bool := c == '\n'

/-- Character cutset of the Go literal "\r" as used in `strings.Trim(s, "\r")`. -/
def cutsetR (c : Char) : Bool := c == '\r'

/-- Character cutset of the Go literal "\r\n" as used in `strings.Trim(s, "\r\n")`. -/
def cutsetRN (c : Char) : Bool := c == '\r' || c == '\n'

/-- Go `strings.Trim s cutset`: removes the maximal leading run
(`List.dropWhile`) and the maximal trailing run (`List.rdropWhile`) of
cutset characters. -/
def goTrim (p : Char → Bool) (s : List Char) : List Char :=
  List.rdropWhile p (List.dropWhile p s)

/-- src/main.go `chomp`:
`strings.Trim(strings.Trim(strings.Trim(s, "\n"), "\r"), "\r\n")`. -/
def chomp (s : List Char) : List Char :=
  goTrim cutsetRN (goTrim cutsetR (goTrim cutsetN s))

/-- corev2 Entity, fields read by src/main.go. -/
structure Entity where
  Name : List Char
  Namespace : List Char
deriving DecidableEq

/-- corev2 Check, fields read by src/main.go (`Status` is a uint32). -/
structure Check where
  Name : List Char
  Status : Nat
  Output : List Char
deriving DecidableEq

/-- corev2 Event, fields read by src/main.go. -/
structure Event where
  Entity : Entity
  Check : Check
deriving DecidableEq

/-- src/main.go `eventKey`: "entity/check". -/
def eventKey (event : Event) : List Char :=
  event.Entity.Name ++ "/".toList ++ event.Check.Name

/-- src/main.go `eventSummary`. The Go slice `output[0:maxLength]` panics
when `maxLength` exceeds `len(output)`; the panic is modelled as `none`. -/
def eventSummary (event : Event) (maxLength : Nat) : Option (List Char) :=
  let output := chomp event.Check.Output
  if event.Check.Output.length > maxLength then
    if maxLength ≤ output.length then
      some (eventKey event ++ ":".toList ++ (output.take maxLength ++ "...".toList))
    else
      none
  else
    some (eventKey event ++ ":".toList ++ output)

/-- src/main.go `formattedEventAction`. -/
def formattedEventAction (event : Event) : List Char :=
  match event.Check.Status with
  | 0 => "RESOLVED".toList
  | _ => "ALERT".toList

/-- src/main.go `formattedMessage`: "action - summary(event, 100)";
`none` when the summary slice panics. -/
def formattedMessage (event : Event) : Option (List Char) :=
  (eventSummary event 100).map
    (fun s => formattedEventAction event ++ " - ".toList ++ s)

/-- src/main.go `messageColor`. -/
def messageColor (event : Event) : List Char :=
  match event.Check.Status with
  | 0 => "#36a64f".toList
  | 1 => "#ffcc00".toList
  | 2 => "#ff0000".toList
  | _ => "#6600cc".toList

/-- src/main.go `HandlerConfig` (the fields the handler reads or writes,
plus the plugin name used in the template-error report). -/
structure HandlerConfig where
  Name : List Char
  sensuUIURL : List Char
  slackwebHookURL : List Char
  slackChannel : List Char
  slackUsername : List Char
  slackIconURL : List Char
  slackDescriptionTemplate : List Char
  slackAlertCritical : Bool
deriving DecidableEq

/-- src/main.go `defaultChannel`. -/
def defaultChannel : List Char := "#general".toList

/-- src/main.go `defaultUsername`. -/
def defaultUsername : List Char := "sensu".toList

/-- src/main.go `defaultIconURL`. -/
def defaultIconURL : List Char := "https://www.sensu.io/img/sensu-logo.png".toList

/-- The deprecated environment variables read by `checkArgs`
(`os.Getenv` returns "" for an unset variable, so `[]` models unset). -/
structure DeprecatedEnv where
  SENSU_SLACK_WEBHOOK_URL : List Char
  SENSU_SLACK_CHANNEL : List Char
  SENSU_SLACK_USERNAME : List Char
  SENSU_SLACK_ICON_URL : List Char
deriving DecidableEq

/-- src/main.go `checkArgs` lines 122-134: the deprecated
environment-variable overlay applied to the configuration. -/
def applyDeprecatedEnv (env : DeprecatedEnv) (cfg : HandlerConfig) : HandlerConfig :=
  let cfg1 := if env.SENSU_SLACK_WEBHOOK_URL ≠ [] then
      { cfg with slackwebHookURL := env.SENSU_SLACK_WEBHOOK_URL } else cfg
  let cfg2 := if env.SENSU_SLACK_CHANNEL ≠ [] ∧ cfg1.slackChannel = defaultChannel then
      { cfg1 with slackChannel := env.SENSU_SLACK_CHANNEL } else cfg1
  let cfg3 := if env.SENSU_SLACK_USERNAME ≠ [] ∧ cfg2.slackUsername = defaultUsername then
      { cfg2 with slackUsername := env.SENSU_SLACK_USERNAME } else cfg2
  if env.SENSU_SLACK_ICON_URL ≠ [] ∧ cfg3.slackIconURL = defaultIconURL then
    { cfg3 with slackIconURL := env.SENSU_SLACK_ICON_URL } else cfg3

/-- src/main.go `checkArgs`: deprecated-environment overlay followed by
validation of the webhook URL and the UI URL; the mutated global
configuration is returned explicitly. -/
def checkArgs (env : DeprecatedEnv) (cfg : HandlerConfig) :
    Except (List Char) HandlerConfig :=
  let cfg := applyDeprecatedEnv env cfg
  if cfg.slackwebHookURL.length = 0 then
    Except.error "--webhook-url or SLACK_WEBHOOK_URL environment variable is required".toList
  else if cfg.sensuUIURL.length = 0 then
    Except.error "--ui-url or SENSU_UI_URL environment variable is required".toList
  else
    Except.ok cfg

/-- Modelled from the spec: the plugin-SDK harness wired up in `main`
(`sensu.NewGoHandler(..., checkArgs, sendMessage)`) lives outside this
repository; per the spec it invokes the validation entry point first and
invokes the execution entry point only when validation succeeds. -/
def runHandler (core : HandlerConfig → Event → Except (List Char) Unit)
    (env : DeprecatedEnv) (cfg : HandlerConfig) (event : Event) :
    Except (List Char) Unit :=
  match checkArgs env cfg with
  | Except.error e => Except.error e
  | Except.ok cfg' => core cfg' event

/-- src/main.go `eventURL` with the configured UI base URL passed
explicitly instead of read from the global configuration. -/
def eventURL (cfg : HandlerConfig) (event : Event) : List Char :=
  cfg.sensuUIURL ++ "/n/".toList ++ event.Entity.Namespace ++
    "/events/".toList ++ event.Entity.Name ++ "/".toList ++ event.Check.Name

/-- Outcome of `templates.EvalTemplate` (external plugin-SDK code):
the rendered string together with an optional error. src/main.go uses
the returned string whether or not an error is present and only prints
the error. -/
structure TemplateResult where
  rendered : List Char
  err : Option (List Char)
deriving DecidableEq

/-- slack.AttachmentField (zero value only; src/main.go never populates
fields). -/
structure AttachmentField where
  Title : List Char
  Value : List Char
  Short : Bool
deriving DecidableEq

/-- slack.AttachmentAction, fields set by src/main.go plus the `Name`
zero value. `ActionType` models the Go field `Type` (a Lean keyword). -/
structure AttachmentAction where
  Name : List Char
  Text : List Char
  ActionType : List Char
  URL : List Char
deriving DecidableEq

/-- slack.Attachment, the fields src/main.go sets plus the zero-valued
`Title`, `Fields` and `Footer`. -/
structure Attachment where
  Title : List Char
  Fields : List AttachmentField
  Text : List Char
  Fallback : List Char
  Color : List Char
  MarkdownIn : List (List Char)
  Actions : List AttachmentAction
  Footer : List Char
deriving DecidableEq

/-- Go `strings.Replace(description, backslash-n, newline, -1)`:
replaces every (left-to-right, non-overlapping) occurrence of the
two-character sequence backslash followed by n with a newline. -/
def replaceLitNewline : List Char → List Char
  | [] => []
  | '\\' :: 'n' :: t => '\n' :: replaceLitNewline t
  | c :: t => c :: replaceLitNewline t

/-- src/main.go `messageAttachment`, with the external template
evaluation's outcome passed as a parameter. The first component holds
what the function prints (the template-error report, if any); the
second is `none` when building `Fallback` panics inside
`formattedMessage`. -/
def messageAttachment (cfg : HandlerConfig) (tr : TemplateResult)
    (event : Event) : List (List Char) × Option Attachment :=
  let logs : List (List Char) :=
    match tr.err with
    | some e => [cfg.Name ++ ": Error processing template: ".toList ++ e]
    | none => []
  let description := replaceLitNewline tr.rendered
  (logs, (formattedMessage event).map (fun fb =>
    { Title := []
      Fields := []
      Text := description
      Fallback := fb
      Color := messageColor event
      MarkdownIn := ["text".toList]
      Actions := [{ Name := []
                    Text := "View in Sensu".toList
                    ActionType := "button".toList
                    URL := eventURL cfg event }]
      Footer := [] }))

/-! ### Helper lemmas about Go-style trimming -/

lemma dropWhile_absorb (p q : Char → Bool) (hpq : ∀ c, q c = true → p c = true)
    (s : List Char) :
    List.dropWhile p (List.dropWhile q s) = List.dropWhile p s := by
  induction s with
  | nil => rfl
  | cons c t ih =>
    by_cases hq : q c = true
    · simp [List.dropWhile_cons, hq, hpq c hq, ih]
    · simp [List.dropWhile_cons, hq]

lemma rdropWhile_absorb (p q : Char → Bool) (hpq : ∀ c, q c = true → p c = true)
    (s : List Char) :
    List.rdropWhile p (List.rdropWhile q s) = List.rdropWhile p s := by
  simp only [List.rdropWhile, List.reverse_reverse]
  rw [dropWhile_absorb p q hpq]

lemma dropWhile_rdropWhile_comm (p q : Char → Bool) (s : List Char) :
    List.dropWhile p (List.rdropWhile q s) = List.rdropWhile q (List.dropWhile p s) := by
  induction s using List.reverseRecOn with
  | nil => rfl
  | append_singleton l x ih =>
    rw [List.rdropWhile_concat, List.dropWhile_append]
    by_cases hq : q x = true
    · rw [if_pos hq, ih]
      by_cases hd : (List.dropWhile p l).isEmpty
      · rw [if_pos hd]
        rw [List.isEmpty_iff] at hd
        rw [hd, List.rdropWhile_nil]
        by_cases hp : p x = true
        · simp [List.dropWhile_cons, hp]
        · simp [List.dropWhile_cons, hp, List.rdropWhile_singleton, hq]
      · rw [if_neg hd]
        rw [List.rdropWhile_concat_pos q _ x hq]
    · rw [if_neg hq, List.dropWhile_append]
      by_cases hd : (List.dropWhile p l).isEmpty
      · rw [if_pos hd]
        by_cases hp : p x = true
        · simp [List.dropWhile_cons, hp]
        · simp [List.dropWhile_cons, hp, List.rdropWhile_singleton, hq]
      · rw [if_neg hd]
        rw [List.rdropWhile_concat_neg q _ x hq]

lemma goTrim_absorb (p q : Char → Bool) (hpq : ∀ c, q c = true → p c = true)
    (s : List Char) : goTrim p (goTrim q s) = goTrim p s := by
  unfold goTrim
  rw [dropWhile_rdropWhile_comm, dropWhile_absorb p q hpq, rdropWhile_absorb p q hpq]

lemma chomp_eq_goTrim (s : List Char) : chomp s = goTrim cutsetRN s := by
  unfold chomp
  rw [goTrim_absorb cutsetRN cutsetR
        (by intro c h; simp only [cutsetR] at h; simp [cutsetRN, h]),
      goTrim_absorb cutsetRN cutsetN
        (by intro c h; simp only [cutsetN] at h; simp [cutsetRN, h])]

lemma rdropWhile_append_rtakeWhile (p : Char → Bool) (l : List Char) :
    List.rdropWhile p l ++ List.rtakeWhile p l = l := by
  unfold List.rdropWhile List.rtakeWhile
  rw [← List.reverse_append, List.takeWhile_append_dropWhile, List.reverse_reverse]

lemma chomp_length_le (s : List Char) : (chomp s).length ≤ s.length := by
  rw [chomp_eq_goTrim]
  unfold goTrim
  exact Nat.le_trans (List.rdropWhile_prefix cutsetRN _).sublist.length_le
    (List.dropWhile_suffix cutsetRN).sublist.length_le

lemma eventSummary_eq_some (ev : Event) (mL : Nat)
    (h : ev.Check.Output.length ≤ mL ∨ mL ≤ (chomp ev.Check.Output).length) :
    ∃ s, eventSummary ev mL = some s := by
  simp only [eventSummary]
  by_cases hgt : ev.Check.Output.length > mL
  · rw [if_pos hgt, if_pos (by omega)]
    exact ⟨_, rfl⟩
  · rw [if_neg hgt]
    exact ⟨_, rfl⟩

lemma messageAttachment_some (cfg : HandlerConfig) (tr : TemplateResult) (ev : Event)
    (h : ev.Check.Output.length ≤ 100 ∨ 100 ≤ (chomp ev.Check.Output).length) :
    ∃ fb, formattedMessage ev = some fb ∧
      (messageAttachment cfg tr ev).2 = some
        { Title := []
          Fields := []
          Text := replaceLitNewline tr.rendered
          Fallback := fb
          Color := messageColor ev
          MarkdownIn := ["text".toList]
          Actions := [{ Name := []
                        Text := "View in Sensu".toList
                        ActionType := "button".toList
                        URL := eventURL cfg ev }]
          Footer := [] } := by
  obtain ⟨s, hs⟩ := eventSummary_eq_some ev 100 h
  have hfm : formattedMessage ev = some (formattedEventAction ev ++ " - ".toList ++ s) := by
    simp only [formattedMessage, hs]
    rfl
  refine ⟨_, hfm, ?_⟩
  simp only [messageAttachment, hfm]
  rfl

/-! ### Claim theorems -/

/-- Claim C2 counterexample: `chomp` does not preserve leading line-end
characters — a leading newline is removed, refuting the claim that only
the trailing run is stripped. -/
theorem c2_counterexample :
    chomp "\nhello".toList = "hello".toList ∧
      "\nhello".toList ≠ "hello".toList := by
  decide

/-- Claim C2 (amended): `chomp` removes exactly the maximal leading run
and the maximal trailing run of newline and carriage-return characters
and changes nothing else: the string splits as a line-end prefix, the
chomp result (which no further line-end trimming changes on either
side), and a line-end suffix. -/
theorem c2_amended (s : List Char) :
    ∃ a b, s = a ++ chomp s ++ b ∧ a.all cutsetRN = true ∧ b.all cutsetRN = true ∧
      List.dropWhile cutsetRN (chomp s) = chomp s ∧
      List.rdropWhile cutsetRN (chomp s) = chomp s := by
  refine ⟨List.takeWhile cutsetRN s,
    List.rtakeWhile cutsetRN (List.dropWhile cutsetRN s), ?_, ?_, ?_, ?_, ?_⟩
  · rw [chomp_eq_goTrim]
    unfold goTrim
    rw [List.append_assoc, rdropWhile_append_rtakeWhile,
        List.takeWhile_append_dropWhile]
  · rw [List.all_eq_true]
    intro c hc
    exact List.mem_takeWhile_imp hc
  · rw [List.all_eq_true]
    intro c hc
    exact List.mem_rtakeWhile_imp hc
  · rw [chomp_eq_goTrim]
    unfold goTrim
    rw [dropWhile_rdropWhile_comm, List.dropWhile_idempotent]
  · rw [chomp_eq_goTrim]
    unfold goTrim
    rw [List.rdropWhile_idempotent]

/-- Claim C9: `chomp` is idempotent — re-trimming a trimmed string is a
no-op. -/
theorem c9_chomp_idempotent (s : List Char) : chomp (chomp s) = chomp s := by
  simp only [chomp_eq_goTrim]
  exact goTrim_absorb cutsetRN cutsetRN (fun c h => h) s

/-- Claim C8: the status-to-color mapping is total over all status
codes: 0 maps to green, 1 to amber, 2 to red, and every other value to
the purple default. -/
theorem c8_messageColor_total (ev : Event) :
    (ev.Check.Status = 0 → messageColor ev = "#36a64f".toList) ∧
    (ev.Check.Status = 1 → messageColor ev = "#ffcc00".toList) ∧
    (ev.Check.Status = 2 → messageColor ev = "#ff0000".toList) ∧
    (ev.Check.Status ≠ 0 → ev.Check.Status ≠ 1 → ev.Check.Status ≠ 2 →
      messageColor ev = "#6600cc".toList) := by
  refine ⟨?_, ?_, ?_, ?_⟩
  · intro h
    unfold messageColor
    rw [h]
  · intro h
    unfold messageColor
    rw [h]
  · intro h
    unfold messageColor
    rw [h]
  · intro h0 h1 h2
    have hk : ev.Check.Status - 3 + 3 = ev.Check.Status := by omega
    unfold messageColor
    rw [← hk]
    rfl

/-- Claim C8 witness: the four color branches evaluated at concrete
statuses 0, 1, 2 and 7. -/
theorem c8_witness :
    messageColor ⟨⟨"entity1".toList, "default".toList⟩,
        ⟨"check1".toList, 0, []⟩⟩ = "#36a64f".toList ∧
    messageColor ⟨⟨"entity1".toList, "default".toList⟩,
        ⟨"check1".toList, 1, []⟩⟩ = "#ffcc00".toList ∧
    messageColor ⟨⟨"entity1".toList, "default".toList⟩,
        ⟨"check1".toList, 2, []⟩⟩ = "#ff0000".toList ∧
    messageColor ⟨⟨"entity1".toList, "default".toList⟩,
        ⟨"check1".toList, 7, []⟩⟩ = "#6600cc".toList :=
  ⟨(c8_messageColor_total _).1 rfl,
   (c8_messageColor_total _).2.1 rfl,
   (c8_messageColor_total _).2.2.1 rfl,
   (c8_messageColor_total _).2.2.2 (by decide) (by decide) (by decide)⟩

/-- Claim C10: `formattedEventAction` and `messageColor` depend only on
the check status — two events with equal status get the same label and
the same color, whatever their other fields. -/
theorem c10_status_determines (e₁ e₂ : Event)
    (h : e₁.Check.Status = e₂.Check.Status) :
    formattedEventAction e₁ = formattedEventAction e₂ ∧
      messageColor e₁ = messageColor e₂ := by
  unfold formattedEventAction messageColor
  rw [h]
  exact ⟨rfl, rfl⟩

/-- Claim C10 witness: two events sharing status 2 but differing in
every other field get the same label and color. -/
theorem c10_witness :
    formattedEventAction ⟨⟨"entity1".toList, "default".toList⟩,
        ⟨"check1".toList, 2, "disk is full".toList⟩⟩ =
      formattedEventAction ⟨⟨"entity9".toList, "other".toList⟩,
        ⟨"check9".toList, 2, []⟩⟩ ∧
    messageColor ⟨⟨"entity1".toList, "default".toList⟩,
        ⟨"check1".toList, 2, "disk is full".toList⟩⟩ =
      messageColor ⟨⟨"entity9".toList, "other".toList⟩,
        ⟨"check9".toList, 2, []⟩⟩ :=
  c10_status_determines _ _ rfl

/-- Claim C1 counterexample: an output of length 7 whose trimmed form
has length 2 makes `eventSummary` with maxLength 4 take the slice
branch out of range — the Go slice panics, so the result is not
error-free and the branch is reachable. -/
theorem c1_counterexample :
    eventSummary ⟨⟨"entity1".toList, "default".toList⟩,
        ⟨"check1".toList, 0, "hi\n\n\n\n\n".toList⟩⟩ 4 = none ∧
    ("hi\n\n\n\n\n".toList).length > 4 ∧
    (chomp "hi\n\n\n\n\n".toList).length < 4 := by
  decide

/-- Claim C1 (amended): `eventSummary` returns a result exactly when the
untrimmed output fits in maxLength or the trimmed output is at least
maxLength long (otherwise the slice is out of range and Go panics);
whenever a result is returned, its length is bounded by the event key,
the separator, maxLength and the three-character ellipsis. -/
theorem c1_amended (ev : Event) (mL : Nat) :
    ((eventSummary ev mL).isSome ↔
      (ev.Check.Output.length ≤ mL ∨ mL ≤ (chomp ev.Check.Output).length)) ∧
    (∀ s, eventSummary ev mL = some s →
      s.length ≤ (eventKey ev).length + 1 + mL + 3) := by
  constructor
  · simp only [eventSummary]
    by_cases hgt : ev.Check.Output.length > mL
    · rw [if_pos hgt]
      by_cases hle : mL ≤ (chomp ev.Check.Output).length
      · rw [if_pos hle]
        exact iff_of_true (by simp) (Or.inr hle)
      · rw [if_neg hle]
        exact iff_of_false (by simp) (by omega)
    · rw [if_neg hgt]
      exact iff_of_true (by simp) (Or.inl (by omega))
  · intro s hs
    have hcl : (chomp ev.Check.Output).length ≤ ev.Check.Output.length :=
      chomp_length_le _
    have hcolon : (":".toList).length = 1 := rfl
    have hdots : ("...".toList).length = 3 := rfl
    simp only [eventSummary] at hs
    split_ifs at hs with hgt hle
    · obtain rfl := Option.some.inj hs
      simp only [List.length_append, List.length_take]
      omega
    · obtain rfl := Option.some.inj hs
      simp only [List.length_append]
      omega

/-- Claim C1 witness: the length bound evaluated at the test fixture
with maxLength 5. -/
theorem c1_witness :
    eventSummary ⟨⟨"entity1".toList, "default".toList⟩,
        ⟨"check1".toList, 0, "disk is full".toList⟩⟩ 5 =
      some "entity1/check1:disk ...".toList ∧
    ("entity1/check1:disk ...".toList).length ≤
      (eventKey ⟨⟨"entity1".toList, "default".toList⟩,
        ⟨"check1".toList, 0, "disk is full".toList⟩⟩).length + 1 + 5 + 3 :=
  ⟨by decide, (c1_amended _ 5).2 _ (by decide)⟩

/-- Claim C5 counterexample: with an all-newline output of length 6 and
maxLength 3 the untrimmed length exceeds maxLength, yet no sliced
result is produced — the slice of the trimmed (empty) output panics. -/
theorem c5_counterexample :
    eventSummary ⟨⟨"entity2".toList, "default".toList⟩,
        ⟨"check2".toList, 0, List.replicate 6 '\n'⟩⟩ 3 = none ∧
    (List.replicate 6 '\n').length > 3 := by
  decide

/-- Claim C5 (amended): `eventSummary` trims leading and trailing line
endings (not only trailing); when the untrimmed output fits in
maxLength the trimmed output is used unmodified, and when the untrimmed
output is longer and the trimmed output is at least maxLength long the
trimmed output is sliced to maxLength and the ellipsis appended (when
the trimmed output is shorter the slice panics and no result exists);
the result is the event key, a colon and the output portion, and the
two fixture examples evaluate as the claim states. -/
theorem c5_amended :
    (∀ (ev : Event) (mL : Nat), ev.Check.Output.length ≤ mL →
      eventSummary ev mL =
        some (eventKey ev ++ ":".toList ++ chomp ev.Check.Output)) ∧
    (∀ (ev : Event) (mL : Nat), ev.Check.Output.length > mL →
      mL ≤ (chomp ev.Check.Output).length →
      eventSummary ev mL =
        some (eventKey ev ++ ":".toList ++
          ((chomp ev.Check.Output).take mL ++ "...".toList))) ∧
    eventSummary ⟨⟨"entity1".toList, "default".toList⟩,
        ⟨"check1".toList, 0, "disk is full".toList⟩⟩ 5 =
      some "entity1/check1:disk ...".toList ∧
    eventSummary ⟨⟨"entity1".toList, "default".toList⟩,
        ⟨"check1".toList, 0, "disk is full".toList⟩⟩ 100 =
      some "entity1/check1:disk is full".toList := by
  refine ⟨?_, ?_, by decide, by decide⟩
  · intro ev mL h
    simp only [eventSummary]
    rw [if_neg (by omega)]
  · intro ev mL h1 h2
    simp only [eventSummary]
    rw [if_pos h1, if_pos h2]

/-- Claim C5 witness: the no-truncation branch evaluated at the test
fixture with maxLength 100. -/
theorem c5_witness :
    eventSummary ⟨⟨"entity1".toList, "default".toList⟩,
        ⟨"check1".toList, 0, "disk is full".toList⟩⟩ 100 =
      some (eventKey ⟨⟨"entity1".toList, "default".toList⟩,
          ⟨"check1".toList, 0, "disk is full".toList⟩⟩ ++ ":".toList ++
        chomp "disk is full".toList) :=
  c5_amended.1 _ 100 (by decide)

/-- Claim C3 counterexample: with the primary webhook URL already set
to a non-empty value, a non-empty deprecated SENSU_SLACK_WEBHOOK_URL
still replaces it — the deprecated variable is not a mere fallback. -/
theorem c3_counterexample :
    checkArgs
        ⟨"https://hooks.example.com/deprecated".toList, [], [], []⟩
        ⟨"sensu-slack-handler".toList, "https://ui.example.com".toList,
          "https://hooks.example.com/primary".toList, defaultChannel,
          defaultUsername, defaultIconURL, [], false⟩ =
      Except.ok
        ⟨"sensu-slack-handler".toList, "https://ui.example.com".toList,
          "https://hooks.example.com/deprecated".toList, defaultChannel,
          defaultUsername, defaultIconURL, [], false⟩ ∧
    "https://hooks.example.com/deprecated".toList ≠
      "https://hooks.example.com/primary".toList := by
  constructor
  · rfl
  · decide

/-- Claim C3 (amended): the deprecated SENSU_SLACK_WEBHOOK_URL, when
non-empty, always overrides the webhook URL whatever its prior value;
only when the deprecated variable is unset is the existing webhook URL
kept. -/
theorem c3_amended (env : DeprecatedEnv) (cfg : HandlerConfig) :
    (env.SENSU_SLACK_WEBHOOK_URL ≠ [] →
      (applyDeprecatedEnv env cfg).slackwebHookURL =
        env.SENSU_SLACK_WEBHOOK_URL) ∧
    (env.SENSU_SLACK_WEBHOOK_URL = [] →
      (applyDeprecatedEnv env cfg).slackwebHookURL = cfg.slackwebHookURL) := by
  constructor <;> intro h <;> simp only [applyDeprecatedEnv] <;>
    split_ifs <;> simp_all

/-- Claim C3 witness: the override applied at a concrete configuration
and environment. -/
theorem c3_witness :
    (applyDeprecatedEnv
        ⟨"https://hooks.example.com/deprecated".toList, [], [], []⟩
        ⟨"sensu-slack-handler".toList, "https://ui.example.com".toList,
          "https://hooks.example.com/primary".toList, defaultChannel,
          defaultUsername, defaultIconURL, [], false⟩).slackwebHookURL =
      "https://hooks.example.com/deprecated".toList :=
  (c3_amended _ _).1 (by decide)

/-- Claim C7: after the deprecated-environment overlay, `checkArgs`
succeeds exactly when both the webhook URL and the UI URL are
non-empty; when one is empty the returned error names the missing
field, and in that case the harness never invokes the core. -/
theorem c7_checkArgs (env : DeprecatedEnv) (cfg : HandlerConfig) (ev : Event) :
    ((∃ c, checkArgs env cfg = Except.ok c) ↔
      ((applyDeprecatedEnv env cfg).slackwebHookURL ≠ [] ∧
        (applyDeprecatedEnv env cfg).sensuUIURL ≠ [])) ∧
    ((applyDeprecatedEnv env cfg).slackwebHookURL = [] →
      checkArgs env cfg = Except.error
        "--webhook-url or SLACK_WEBHOOK_URL environment variable is required".toList) ∧
    ((applyDeprecatedEnv env cfg).slackwebHookURL ≠ [] →
      (applyDeprecatedEnv env cfg).sensuUIURL = [] →
      checkArgs env cfg = Except.error
        "--ui-url or SENSU_UI_URL environment variable is required".toList) ∧
    (∀ core e, checkArgs env cfg = Except.error e →
      runHandler core env cfg ev = Except.error e) := by
  refine ⟨?_, ?_, ?_, ?_⟩
  · simp only [checkArgs, List.length_eq_zero]
    by_cases h1 : (applyDeprecatedEnv env cfg).slackwebHookURL = []
    · rw [if_pos h1]
      constructor
      · rintro ⟨c, hc⟩
        exact Except.noConfusion hc
      · rintro ⟨hw, _⟩
        exact absurd h1 hw
    · rw [if_neg h1]
      by_cases h2 : (applyDeprecatedEnv env cfg).sensuUIURL = []
      · rw [if_pos h2]
        constructor
        · rintro ⟨c, hc⟩
          exact Except.noConfusion hc
        · rintro ⟨_, hu⟩
          exact absurd h2 hu
      · rw [if_neg h2]
        exact iff_of_true ⟨_, rfl⟩ ⟨h1, h2⟩
  · intro h
    simp only [checkArgs, List.length_eq_zero]
    rw [if_pos h]
  · intro h1 h2
    simp only [checkArgs, List.length_eq_zero]
    rw [if_neg h1, if_pos h2]
  · intro core e h
    simp only [runHandler, h]

/-- Claim C7 witness: a configuration with a webhook URL but no UI URL
is rejected naming the UI URL, and the harness propagates the error
without invoking the core. -/
theorem c7_witness :
    checkArgs ⟨[], [], [], []⟩
        ⟨"sensu-slack-handler".toList, [],
          "https://hooks.example.com/xyz".toList, defaultChannel,
          defaultUsername, defaultIconURL, [], false⟩ =
      Except.error
        "--ui-url or SENSU_UI_URL environment variable is required".toList ∧
    runHandler (fun _ _ => Except.ok ()) ⟨[], [], [], []⟩
        ⟨"sensu-slack-handler".toList, [],
          "https://hooks.example.com/xyz".toList, defaultChannel,
          defaultUsername, defaultIconURL, [], false⟩
        ⟨⟨"entity1".toList, "default".toList⟩, ⟨"check1".toList, 0, []⟩⟩ =
      Except.error
        "--ui-url or SENSU_UI_URL environment variable is required".toList := by
  have h := c7_checkArgs ⟨[], [], [], []⟩
      ⟨"sensu-slack-handler".toList, [],
        "https://hooks.example.com/xyz".toList, defaultChannel,
        defaultUsername, defaultIconURL, [], false⟩
      ⟨⟨"entity1".toList, "default".toList⟩, ⟨"check1".toList, 0, []⟩⟩
  have hca := h.2.2.1 (by decide) (by decide)
  exact ⟨hca, h.2.2.2 _ _ hca⟩

/-- Claim C4 counterexample: with a failing template and an event whose
check output is 101 newlines, `messageAttachment` produces no
attachment at all — building the fallback panics inside the summary
slice, so message construction does abort for this event. -/
theorem c4_counterexample :
    (messageAttachment
        ⟨"sensu-slack-handler".toList, "https://ui.example.com".toList,
          "https://hooks.example.com/xyz".toList, defaultChannel,
          defaultUsername, defaultIconURL, [], false⟩
        ⟨[], some "boom".toList⟩
        ⟨⟨"entity1".toList, "default".toList⟩,
          ⟨"check1".toList, 1, List.replicate 101 '\n'⟩⟩).2 = none ∧
    (List.replicate 101 '\n').length > 100 := by
  constructor
  · rfl
  · decide

/-- Claim C4 (amended): for every event whose check output does not
trigger the summary-slice panic (untrimmed length at most 100, or
trimmed length at least 100), a template-evaluation failure does not
abort `messageAttachment`: the error is reported on standard output and
an attachment is still produced whose fallback is the formatted
message, whose color is the status color, and whose text is the
degraded rendered description after newline normalization. -/
theorem c4_amended (cfg : HandlerConfig) (tr : TemplateResult) (ev : Event)
    (e : List Char) (herr : tr.err = some e)
    (h : ev.Check.Output.length ≤ 100 ∨ 100 ≤ (chomp ev.Check.Output).length) :
    (messageAttachment cfg tr ev).1 =
      [cfg.Name ++ ": Error processing template: ".toList ++ e] ∧
    ∃ att fb, (messageAttachment cfg tr ev).2 = some att ∧
      formattedMessage ev = some fb ∧
      att.Fallback = fb ∧ att.Color = messageColor ev ∧
      att.Text = replaceLitNewline tr.rendered := by
  obtain ⟨fb, hfm, hatt⟩ := messageAttachment_some cfg tr ev h
  constructor
  · simp only [messageAttachment, herr]
  · exact ⟨_, fb, hatt, hfm, rfl, rfl, rfl⟩

/-- Claim C4 witness: the degraded attachment produced for a concrete
event and a concretely failing template. -/
theorem c4_witness :
    (messageAttachment
        ⟨"sensu-slack-handler".toList, "https://ui.example.com".toList,
          "https://hooks.example.com/xyz".toList, defaultChannel,
          defaultUsername, defaultIconURL, [], false⟩
        ⟨"partial".toList, some "boom".toList⟩
        ⟨⟨"entity1".toList, "default".toList⟩,
          ⟨"check1".toList, 1, "disk is full".toList⟩⟩).1 =
      ["sensu-slack-handler".toList ++ ": Error processing template: ".toList ++
        "boom".toList] ∧
    ∃ att fb,
      (messageAttachment
        ⟨"sensu-slack-handler".toList, "https://ui.example.com".toList,
          "https://hooks.example.com/xyz".toList, defaultChannel,
          defaultUsername, defaultIconURL, [], false⟩
        ⟨"partial".toList, some "boom".toList⟩
        ⟨⟨"entity1".toList, "default".toList⟩,
          ⟨"check1".toList, 1, "disk is full".toList⟩⟩).2 = some att ∧
      formattedMessage ⟨⟨"entity1".toList, "default".toList⟩,
          ⟨"check1".toList, 1, "disk is full".toList⟩⟩ = some fb ∧
      att.Fallback = fb ∧
      att.Color = messageColor ⟨⟨"entity1".toList, "default".toList⟩,
          ⟨"check1".toList, 1, "disk is full".toList⟩⟩ ∧
      att.Text = replaceLitNewline "partial".toList :=
  c4_amended _ _ _ "boom".toList rfl (Or.inl (by decide))

/-- Claim C6 counterexample: an event whose check output is one visible
character followed by 101 newlines makes `messageAttachment` return no
attachment (the fallback summary slice panics), so not every event gets
an attachment with the action button. -/
theorem c6_counterexample :
    (messageAttachment
        ⟨"sensu-slack-handler".toList, "https://ui.example.com".toList,
          "https://hooks.example.com/xyz".toList, defaultChannel,
          defaultUsername, defaultIconURL, [], false⟩
        ⟨[], none⟩
        ⟨⟨"entity3".toList, "default".toList⟩,
          ⟨"check3".toList, 0, 'x' :: List.replicate 101 '\n'⟩⟩).2 = none ∧
    ('x' :: List.replicate 101 '\n').length > 100 := by
  constructor
  · rfl
  · decide

/-- Claim C6 (amended): for every event whose check output does not
trigger the summary-slice panic, the attachment `messageAttachment`
returns carries exactly one action — a "View in Sensu" button whose URL
is the UI base URL, "/n/", the namespace, "/events/", the entity name,
"/" and the check name — with markdown enabled for the text field only
and no title, fields list or footer populated. -/
theorem c6_amended (cfg : HandlerConfig) (tr : TemplateResult) (ev : Event)
    (h : ev.Check.Output.length ≤ 100 ∨ 100 ≤ (chomp ev.Check.Output).length) :
    ∃ att, (messageAttachment cfg tr ev).2 = some att ∧
      att.Actions = [{ Name := []
                       Text := "View in Sensu".toList
                       ActionType := "button".toList
                       URL := cfg.sensuUIURL ++ "/n/".toList ++
                         ev.Entity.Namespace ++ "/events/".toList ++
                         ev.Entity.Name ++ "/".toList ++ ev.Check.Name }] ∧
      att.MarkdownIn = ["text".toList] ∧
      att.Title = [] ∧ att.Fields = [] ∧ att.Footer = [] := by
  obtain ⟨fb, hfm, hatt⟩ := messageAttachment_some cfg tr ev h
  exact ⟨_, hatt, rfl, rfl, rfl, rfl, rfl⟩

/-- Claim C6 witness: the single-button attachment produced at a
concrete configuration and event. -/
theorem c6_witness :
    ∃ att,
      (messageAttachment
        ⟨"sensu-slack-handler".toList, "https://ui.example.com".toList,
          "https://hooks.example.com/xyz".toList, defaultChannel,
          defaultUsername, defaultIconURL, [], false⟩
        ⟨[], none⟩
        ⟨⟨"entity1".toList, "default".toList⟩,
          ⟨"check1".toList, 0, "disk is full".toList⟩⟩).2 = some att ∧
      att.Actions = [{ Name := []
                       Text := "View in Sensu".toList
                       ActionType := "button".toList
                       URL := "https://ui.example.com".toList ++ "/n/".toList ++
                         "default".toList ++ "/events/".toList ++
                         "entity1".toList ++ "/".toList ++ "check1".toList }] ∧
      att.MarkdownIn = ["text".toList] ∧
      att.Title = [] ∧ att.Fields = [] ∧ att.Footer = [] :=
  c6_amended _ _ _ (Or.inl (by decide))
